import Mathlib

/-!
# Gateway virtual-routing core (`gw_device.c`) — shallow embedding and verification

This file embeds the BACnet gateway routing core of
`src/bacnet/basic/object/gateway/gw_device.c` in Lean 4 and settles the
specification's claims about it.

The C module keeps three globals:
* `DEVICE_OBJECT_DATA Devices[MAX_NUM_DEVICES]` — the fixed-capacity device table,
* `uint16_t Num_Managed_Devices` — number of occupied slots,
* `uint16_t iCurrent_Device_Idx` — the "currently addressed device" context.

We model the table as a `List DeviceObjectData` whose length plays the role of
`MAX_NUM_DEVICES` (the C array always has exactly that many elements; slots at
indices `≥ Num_Managed_Devices` are unoccupied but readable, zero-initialized as
C globals are).  Stateful C functions become Lean functions from `GatewayState`
(plus arguments) to result × `GatewayState`.
-/

/-- `BACNET_BROADCAST_NETWORK` (0xFFFF), from `bacdef.h`. -/
def BACNET_BROADCAST_NETWORK : Nat := 65535

/-- `OBJECT_DEVICE` member of `BACNET_OBJECT_TYPE` (value 8 per the BACnet standard). -/
def OBJECT_DEVICE : Nat := 8

/-- `CHARACTER_UTF8` (= `CHARACTER_ANSI_X34` = 0) character-string encoding. -/
def CHARACTER_UTF8 : Nat := 0

/-- `BACNET_MAX_INSTANCE` (0x3FFFFF): the 22-bit object-instance ceiling. -/
def BACNET_MAX_INSTANCE : Nat := 4194303

/-- Modelled from the spec: `MAX_DEV_NAME_LEN` lives in `device.h`, which is not
under `src/`; the spec only requires a fixed maximum (§3 "bounded text,
length < a fixed maximum").  We use the upstream header's value 32. -/
def MAX_DEV_NAME_LEN : Nat := 32

/-- Modelled from the spec: `MAX_DEV_DESC_LEN` lives in `device.h`, which is not
under `src/`; the spec only requires an independent fixed maximum.  We use the
upstream header's value 64. -/
def MAX_DEV_DESC_LEN : Nat := 64

/-- The fields of `BACNET_ADDRESS` that the routing core reads: the MAC length
(`len`, 0 meaning broadcast wildcard), the MAC octets (`adr`), and the logical
network number (`net`). -/
structure BacnetAddress where
  len : Nat
  adr : List Nat
  net : Nat
deriving Repr, DecidableEq

/-- One row of the `Devices[]` table (`DEVICE_OBJECT_DATA`): a BACnet object
header (type, instance number, name), plus description, database revision and
the device's own BACnet address. -/
structure DeviceObjectData where
  mObject_Type : Nat
  Object_Instance_Number : Nat
  Object_Name : String
  Description : String
  Database_Revision : Nat
  bacDevAddr : BacnetAddress
deriving Repr, DecidableEq

instance : Inhabited DeviceObjectData :=
  ⟨⟨0, 0, "", "", 0, ⟨0, [], 0⟩⟩⟩

/-- The three globals of `gw_device.c`.  `Devices.length` is `MAX_NUM_DEVICES`. -/
structure GatewayState where
  Devices : List DeviceObjectData
  Num_Managed_Devices : Nat
  iCurrent_Device_Idx : Nat
deriving Repr, DecidableEq

/-- Replace the record in slot `i` by `f` of its current value (in-place array
write `Devices[i] = ...` in the C code). -/
def updateDevice (st : GatewayState) (i : Nat) (f : DeviceObjectData → DeviceObjectData) :
    GatewayState :=
  { st with Devices := st.Devices.set i (f (st.Devices.getD i default)) }

/-- `Routed_Device_Inc_Database_Revision`: bump the current device's revision
counter (a `uint32_t`, hence the modulus). -/
def Routed_Device_Inc_Database_Revision (st : GatewayState) : GatewayState :=
  updateDevice st st.iCurrent_Device_Idx
    (fun d => { d with Database_Revision := (d.Database_Revision + 1) % 4294967296 })

/-- `Routed_Device_Set_Object_Name`: writes the name of `Devices[iCurrent_Device_Idx]`
when the encoding is UTF-8 and the length is within bounds, bumping the database
revision; otherwise changes nothing and reports failure. -/
def Routed_Device_Set_Object_Name
    (st : GatewayState) (encoding : Nat) (value : String) (length : Nat) :
    Bool × GatewayState :=
  if encoding = CHARACTER_UTF8 ∧ length < MAX_DEV_NAME_LEN then
    let st1 := updateDevice st st.iCurrent_Device_Idx
      (fun d => { d with Object_Name := value.take length })
    (true, Routed_Device_Inc_Database_Revision st1)
  else
    (false, st)

/-- `Routed_Device_Set_Description`: writes the description of the current
device when the length is within bounds (no revision bump). -/
def Routed_Device_Set_Description (st : GatewayState) (name : String) (length : Nat) :
    Bool × GatewayState :=
  if length < MAX_DEV_DESC_LEN then
    (true, updateDevice st st.iCurrent_Device_Idx
      (fun d => { d with Description := name.take length }))
  else
    (false, st)

/-- `Routed_Device_Set_Object_Instance_Number`: sets the current device's
instance number and bumps its revision when the value fits in the 22-bit
instance space; otherwise fails without mutation. -/
def Routed_Device_Set_Object_Instance_Number (st : GatewayState) (object_id : Nat) :
    Bool × GatewayState :=
  if object_id ≤ BACNET_MAX_INSTANCE then
    let st1 := updateDevice st st.iCurrent_Device_Idx
      (fun d => { d with Object_Instance_Number := object_id })
    (true, Routed_Device_Inc_Database_Revision st1)
  else
    (false, st)

/-- Argument type of `Add_Routed_Device`'s optional name
(`BACNET_CHARACTER_STRING`: encoding, value and explicit length). -/
structure CharacterString where
  encoding : Nat
  value : String
  length : Nat
deriving Repr, DecidableEq

/-- `Add_Routed_Device`: appends a record when `Num_Managed_Devices <
MAX_NUM_DEVICES` (defaults "No Name"/"No Descr" for absent fields, revision
reset to 0, context moved to the new slot) and returns its index; returns
`UINT16_MAX` (65535) untouched otherwise.  `Num_Managed_Devices` is a
`uint16_t`, hence the modulus on the increment. -/
def Add_Routed_Device (st : GatewayState) (Object_Instance : Nat)
    (sObject_Name : Option CharacterString) (sDescription : Option String) :
    Nat × GatewayState :=
  let i := st.Num_Managed_Devices
  if i < st.Devices.length then
    let st1 : GatewayState :=
      { st with Num_Managed_Devices := (st.Num_Managed_Devices + 1) % 65536,
                iCurrent_Device_Idx := i }
    let st2 := updateDevice st1 i (fun d =>
      { d with mObject_Type := OBJECT_DEVICE,
               Object_Instance_Number := Object_Instance })
    let st3 := (match sObject_Name with
      | some s => Routed_Device_Set_Object_Name st2 s.encoding s.value s.length
      | none => Routed_Device_Set_Object_Name st2 CHARACTER_UTF8 "No Name" "No Name".length).2
    let st4 := (match sDescription with
      | some s => Routed_Device_Set_Description st3 s s.length
      | none => Routed_Device_Set_Description st3 "No Descr" "No Descr".length).2
    let st5 := updateDevice st4 i (fun d => { d with Database_Revision := 0 })
    (i, st5)
  else
    (65535, st)

/-- `Get_Routed_Device_Object`: `-1` resolves the current context; a valid
index (0 ≤ idx < `MAX_NUM_DEVICES`) is returned *and* becomes the context;
anything else yields `NULL`. -/
def Get_Routed_Device_Object (st : GatewayState) (idx : Int) :
    Option DeviceObjectData × GatewayState :=
  if idx = -1 then
    (some (st.Devices.getD st.iCurrent_Device_Idx default), st)
  else if 0 ≤ idx ∧ idx < (st.Devices.length : Int) then
    (some (st.Devices.getD idx.toNat default),
     { st with iCurrent_Device_Idx := idx.toNat })
  else
    (none, st)

/-- `Get_Routed_Device_Address`: same resolution rule as
`Get_Routed_Device_Object` but returning the slot's BACnet address. -/
def Get_Routed_Device_Address (st : GatewayState) (idx : Int) :
    Option BacnetAddress × GatewayState :=
  if idx = -1 then
    (some (st.Devices.getD st.iCurrent_Device_Idx default).bacDevAddr, st)
  else if 0 ≤ idx ∧ idx < (st.Devices.length : Int) then
    (some (st.Devices.getD idx.toNat default).bacDevAddr,
     { st with iCurrent_Device_Idx := idx.toNat })
  else
    (none, st)

/-- The byte-wise MAC comparison loop of `Routed_Device_Address_Lookup`:
success iff the first `dlen` stored octets equal the destination octets. -/
def addrOctetsMatch (stored dadr : List Nat) (dlen : Nat) : Bool :=
  (List.range dlen).all (fun i => stored.getD i 0 = dadr.getD i 0)

/-- `Routed_Device_Address_Lookup`: for a valid slot, `dlen = 0` is an
automatic (broadcast) match; otherwise the stored MAC must equal the
destination MAC octet-for-octet over `dlen` octets.  On success the context
moves to the tested slot; on failure or invalid slot nothing changes. -/
def Routed_Device_Address_Lookup
    (st : GatewayState) (idx : Int) (dlen : Nat) (dadr : Option (List Nat)) :
    Bool × GatewayState :=
  if 0 ≤ idx ∧ idx < (st.Devices.length : Int) then
    let pDev := st.Devices.getD idx.toNat default
    if dlen = 0 then
      (true, { st with iCurrent_Device_Idx := idx.toNat })
    else
      match dadr with
      | none => (false, st)
      | some a =>
        if addrOctetsMatch pDev.bacDevAddr.adr a dlen then
          (true, { st with iCurrent_Device_Idx := idx.toNat })
        else
          (false, st)
  else
    (false, st)

/-- The `while (idx < MAX_NUM_DEVICES)` scan loop inside the virtual-DNET
branch of `Routed_Device_GetNext`: test slots from `idx` upward until one
matches (returning `true` and the post-increment cursor) or the table is
exhausted (returning `false` with cursor `MAX_NUM_DEVICES`). -/
def getNextScanLoop (st : GatewayState) (dest : BacnetAddress) (idx : Nat) :
    Bool × Nat × GatewayState :=
  if idx < st.Devices.length then
    let r := Routed_Device_Address_Lookup st idx dest.len (some dest.adr)
    if r.1 then
      (true, idx + 1, r.2)
    else
      getNextScanLoop r.2 dest (idx + 1)
  else
    (false, idx, st)
termination_by st.Devices.length - idx
decreasing_by
  have h : (Routed_Device_Address_Lookup st (idx : Int) dest.len (some dest.adr)).2.Devices
      = st.Devices := by
    unfold Routed_Device_Address_Lookup
    dsimp only
    repeat' split
    all_goals rfl
  simp only [h]
  omega

/-- `Routed_Device_GetNext`: resolves the next device slot matching `dest`,
updating the cursor per the C control flow (out-of-range cursor terminates;
broadcast network tests exactly the cursor slot; network 0 tests slot 0 and
terminates; the virtual DNET scans from `max(cursor,1)`; any other network is
not ours).  Returns (match?, new cursor, new state). -/
def Routed_Device_GetNext (st : GatewayState) (dest : BacnetAddress)
    (DNET_list : List Int) (cursor : Int) : Bool × Int × GatewayState :=
  let dnet : Int := DNET_list.getD 0 0
  if cursor < 0 ∨ (st.Devices.length : Int) ≤ cursor then
    (false, -1, st)
  else if dest.net = BACNET_BROADCAST_NETWORK then
    let r := Routed_Device_Address_Lookup st cursor dest.len (some dest.adr)
    let idx := cursor.toNat + 1
    if !r.1 then (false, -1, r.2)
    else if idx = st.Devices.length then (true, -1, r.2)
    else (true, (idx : Int), r.2)
  else if dest.net = 0 then
    let r := Routed_Device_Address_Lookup st 0 dest.len (some dest.adr)
    (r.1, -1, r.2)
  else if (dest.net : Int) = dnet then
    let start := if cursor.toNat = 0 then 1 else cursor.toNat
    let r := getNextScanLoop st dest start
    if !r.1 then (false, -1, r.2.2)
    else if r.2.1 = st.Devices.length then (true, -1, r.2.2)
    else (true, (r.2.1 : Int), r.2.2)
  else
    (false, -1, st)

/-- `Routed_Device_Is_Valid_Network`: true iff `dest_net` is the broadcast
network, 0, or equal to `DNET_list[0]` (only the head of the list is read). -/
def Routed_Device_Is_Valid_Network (dest_net : Nat) (DNET_list : List Int) : Bool :=
  let dnet : Int := DNET_list.getD 0 0
  if dest_net = BACNET_BROADCAST_NETWORK then true
  else if dest_net = 0 then true
  else if (dest_net : Int) = dnet then true
  else false

/-- Whether the slot-`i` record matches destination `dest` in the sense of
`Routed_Device_Address_Lookup`: MAC-broadcast (`dest.len = 0`) always matches,
otherwise the stored MAC must agree octet-for-octet. -/
def slotMatches (st : GatewayState) (i : Nat) (dest : BacnetAddress) : Bool :=
  dest.len = 0 || addrOctetsMatch (st.Devices.getD i default).bacDevAddr.adr dest.adr dest.len

/-- The first slot at index `≥ i` matching `dest`, if any: the specification of
what `getNextScanLoop` finds. -/
def firstMatchFrom (st : GatewayState) (dest : BacnetAddress) (i : Nat) : Option Nat :=
  if i < st.Devices.length then
    if slotMatches st i dest then some i
    else firstMatchFrom st dest (i + 1)
  else
    none
termination_by st.Devices.length - i

/-- The claim's reading of §4.4, stated from the spec's words for comparison
with `Routed_Device_Is_Valid_Network`: true iff the destination network is the
broadcast network, or 0, or *present in* the gateway's `-1`-terminated list of
reachable downstream network numbers. -/
def is_reachable_spec (dest_net : Nat) (DNET_list : List Int) : Bool :=
  dest_net = BACNET_BROADCAST_NETWORK || dest_net = 0 ||
    (DNET_list.takeWhile (· ≠ -1)).contains (dest_net : Int)

/-- The linear scan of `Routed_Device_Instance_To_Index`: index of the first
record (over the whole capacity array) whose instance number equals the query. -/
def instanceScan (q : Nat) : List DeviceObjectData → Option Nat
  | [] => none
  | d :: rest =>
    if d.Object_Instance_Number = q then some 0
    else (instanceScan q rest).map (· + 1)

/-- `Routed_Device_Instance_To_Index`: linear scan over all `MAX_NUM_DEVICES`
slots; the first matching slot's index, else 0. -/
def Routed_Device_Instance_To_Index (st : GatewayState) (Instance_Number : Nat) : Nat :=
  (instanceScan Instance_Number st.Devices).getD 0

/-- `Routed_Device_Valid_Object_Instance_Number`: moves the context to the
scan result, then reports whether the record there actually carries the
queried instance number. -/
def Routed_Device_Valid_Object_Instance_Number (st : GatewayState) (object_id : Nat) :
    Bool × GatewayState :=
  let idx := Routed_Device_Instance_To_Index st object_id
  let st' := { st with iCurrent_Device_Idx := idx }
  ((st'.Devices.getD idx default).Object_Instance_Number = object_id, st')

/-! ## Service approval (`Routed_Device_Service_Approval`) -/

/-- The two administrative services the gate special-cases, plus everything
else (`BACNET_SERVICES_SUPPORTED` members outside the two cases fall to the
C switch's `default`). -/
inductive BacnetService where
  | reinitializeDevice
  | deviceCommunicationControl
  | otherService (n : Nat)
deriving Repr, DecidableEq

/-- `REJECT_REASON_UNRECOGNIZED_SERVICE` (value 9 per the BACnet standard). -/
def REJECT_REASON_UNRECOGNIZED_SERVICE : Nat := 9

/-- Modelled from the spec: `reject_encode_apdu` (in `bacnet/reject.c`, not
under `src/`) encodes "a protocol rejection reply keyed by an
unsupported-service reason code" (§4.6): a Reject-PDU octet, the invocation
identifier and the reason code, returning the encoded bytes. -/
def reject_encode_apdu (invoke_id reject_reason : Nat) : List Nat :=
  [96, invoke_id % 256, reject_reason % 256]

/-- `Routed_Device_Service_Approval`: denies reinitialize-device and
device-communication-control whenever the context is a non-zero slot (encoding
a reject reply into the buffer when one is supplied, else returning the bare
length 1); approves (returns 0) everything else.  The pair is (returned
length, contents written to `apdu_buff`). -/
def Routed_Device_Service_Approval (st : GatewayState) (service : BacnetService)
    (apdu_buff : Bool) (invoke_id : Nat) : Nat × Option (List Nat) :=
  match service with
  | .reinitializeDevice =>
    if 0 < st.iCurrent_Device_Idx then
      if apdu_buff then
        let bytes := reject_encode_apdu invoke_id REJECT_REASON_UNRECOGNIZED_SERVICE
        (bytes.length, some bytes)
      else
        (1, none)
    else
      (0, none)
  | .deviceCommunicationControl =>
    if 0 < st.iCurrent_Device_Idx then
      if apdu_buff then
        let bytes := reject_encode_apdu invoke_id REJECT_REASON_UNRECOGNIZED_SERVICE
        (bytes.length, some bytes)
      else
        (1, none)
    else
      (0, none)
  | .otherService _ => (0, none)

/-! ## Write property (`Routed_Device_Write_Property_Local`) -/

/-- `PROP_OBJECT_IDENTIFIER` (75). -/
def PROP_OBJECT_IDENTIFIER : Nat := 75

/-- `PROP_OBJECT_NAME` (77). -/
def PROP_OBJECT_NAME : Nat := 77

/-- `ERROR_CLASS_PROPERTY` (2). -/
def ERROR_CLASS_PROPERTY : Nat := 2

/-- `ERROR_CODE_VALUE_OUT_OF_RANGE` (37). -/
def ERROR_CODE_VALUE_OUT_OF_RANGE : Nat := 37

/-- `BACNET_APPLICATION_TAG_OBJECT_ID` (12). -/
def BACNET_APPLICATION_TAG_OBJECT_ID : Nat := 12

/-- The decoded `BACNET_APPLICATION_DATA_VALUE` shapes the write path reads:
an object identifier, a character string, or a value with any other tag. -/
inductive AppValue where
  | objectId (type instanceNum : Nat)
  | characterString (encoding : Nat) (value : String)
  | otherTagged (tag : Nat)
deriving Repr, DecidableEq

/-- The application tag carried by a decoded value. -/
def AppValue.tag : AppValue → Nat
  | .objectId _ _ => BACNET_APPLICATION_TAG_OBJECT_ID
  | .characterString _ _ => 7
  | .otherTagged t => t

/-- The fields of `BACNET_WRITE_PROPERTY_DATA` the routed write path reads
and writes. -/
structure WPData where
  object_property : Nat
  application_data : List Nat
  error_class : Nat
  error_code : Nat
deriving Repr, DecidableEq

/-- Modelled from the spec: `write_property_type_valid` (not under `src/`)
performs the "type check" of §4.5's validated updates; a validation failure
"yields a property-class, value-out-of-range error" and returns false without
touching any device record. -/
def write_property_type_valid (wp : WPData) (value : AppValue) (expected_tag : Nat) :
    Bool × WPData :=
  if value.tag = expected_tag then
    (true, wp)
  else
    (false, { wp with error_class := ERROR_CLASS_PROPERTY,
                      error_code := ERROR_CODE_VALUE_OUT_OF_RANGE })

/-- Modelled from the spec: `write_property_string_valid` (not under `src/`)
performs the "type/length checks" of §4.5 on a character-string value; a
validation failure "yields a property-class, value-out-of-range error" and
returns false without touching any device record. -/
def write_property_string_valid (wp : WPData) (value : AppValue) (len_max : Nat) :
    Bool × WPData :=
  match value with
  | .characterString _ s =>
    if 0 < s.length ∧ s.length ≤ len_max then
      (true, wp)
    else
      (false, { wp with error_class := ERROR_CLASS_PROPERTY,
                        error_code := ERROR_CODE_VALUE_OUT_OF_RANGE })
  | _ =>
    (false, { wp with error_class := ERROR_CLASS_PROPERTY,
                      error_code := ERROR_CODE_VALUE_OUT_OF_RANGE })

/-- `Routed_Device_Write_Property_Local`.  The application-data decoder
(`bacapp_decode_application_data`) and the generic single-device write path
(`Device_Write_Property_Local`) are external collaborators (§6), passed in as
parameters: `decode` returns the decoded length (negative on decode failure)
with the decoded value, `device_wpl` is the delegated fallthrough (which only
sees the request, never the routed-device table). -/
def Routed_Device_Write_Property_Local
    (decode : List Nat → Int × AppValue)
    (device_wpl : WPData → Bool × WPData)
    (st : GatewayState) (wp : WPData) : Bool × WPData × GatewayState :=
  let dec := decode wp.application_data
  if dec.1 < 0 then
    (false, { wp with error_class := ERROR_CLASS_PROPERTY,
                      error_code := ERROR_CODE_VALUE_OUT_OF_RANGE }, st)
  else if wp.object_property = PROP_OBJECT_IDENTIFIER then
    let tv := write_property_type_valid wp dec.2 BACNET_APPLICATION_TAG_OBJECT_ID
    if tv.1 then
      match dec.2 with
      | .objectId t i =>
        if t = OBJECT_DEVICE then
          let r := Routed_Device_Set_Object_Instance_Number st i
          if r.1 then
            (true, tv.2, r.2)
          else
            (false, { tv.2 with error_class := ERROR_CLASS_PROPERTY,
                                error_code := ERROR_CODE_VALUE_OUT_OF_RANGE }, r.2)
        else
          (false, { tv.2 with error_class := ERROR_CLASS_PROPERTY,
                              error_code := ERROR_CODE_VALUE_OUT_OF_RANGE }, st)
      | _ =>
        (false, { tv.2 with error_class := ERROR_CLASS_PROPERTY,
                            error_code := ERROR_CODE_VALUE_OUT_OF_RANGE }, st)
    else
      (false, tv.2, st)
  else if wp.object_property = PROP_OBJECT_NAME then
    let sv := write_property_string_valid wp dec.2 MAX_DEV_NAME_LEN
    if sv.1 then
      match dec.2 with
      | .characterString enc s =>
        (true, sv.2, (Routed_Device_Set_Object_Name st enc s s.length).2)
      | _ => (true, sv.2, st)
    else
      (false, sv.2, st)
  else
    let r := device_wpl wp
    (r.1, r.2, st)

/-! ## Concrete fixtures used by counterexamples and witnesses -/

/-- A gateway record: instance 100, MAC `[1,2]` (length 2), network 10. -/
def devGW : DeviceObjectData :=
  ⟨OBJECT_DEVICE, 100, "GW", "gateway", 0, ⟨2, [1, 2], 10⟩⟩

/-- A routed-device record: instance 200, MAC `[3,4]` (length 2), network 10. -/
def devR1 : DeviceObjectData :=
  ⟨OBJECT_DEVICE, 200, "D1", "routed", 0, ⟨2, [3, 4], 10⟩⟩

/-- Capacity 3, two occupied slots (gateway + one routed device), context 0.
Slot 2 is unoccupied and zero-initialized, as a C global array is. -/
def stTwo : GatewayState := ⟨[devGW, devR1, default], 2, 0⟩

/-- Capacity 2, one occupied slot (the gateway), context 0; slot 1 is
unoccupied and zero-initialized. -/
def stOne : GatewayState := ⟨[devGW, default], 1, 0⟩

/-- Capacity 3, one occupied slot, context 0. -/
def stOneOfThree : GatewayState := ⟨[devGW, default, default], 1, 0⟩

/-- Capacity 3, two occupied slots, context currently at slot 1. -/
def stTwoAt1 : GatewayState := ⟨[devGW, devR1, default], 2, 1⟩

/-- A full table: capacity 2, both slots occupied, context at slot 1. -/
def stFull : GatewayState := ⟨[devGW, devR1], 2, 1⟩

/-! # Theorems -/

/-! ## Helper lemmas about list updates and the embedded operations -/

theorem getD_set_self {α : Type} (l : List α) (i : Nat) (a d : α) (h : i < l.length) :
    (l.set i a).getD i d = a := by
  induction l generalizing i with
  | nil => simp at h
  | cons x xs ih =>
    cases i with
    | zero => rfl
    | succ k => exact ih k (by simpa using h)

theorem getD_set_ne {α : Type} (l : List α) (i j : Nat) (a d : α) (h : i ≠ j) :
    (l.set i a).getD j d = l.getD j d := by
  induction l generalizing i j with
  | nil => rfl
  | cons x xs ih =>
    cases i with
    | zero => cases j with
      | zero => exact absurd rfl h
      | succ m => rfl
    | succ k => cases j with
      | zero => rfl
      | succ m => exact ih k m (by omega)

/-- `Routed_Device_Address_Lookup` either fails and leaves the state alone, or
succeeds on a valid slot and moves the context there. -/
theorem Address_Lookup_cases (st : GatewayState) (idx : Int) (dlen : Nat)
    (dadr : Option (List Nat)) :
    Routed_Device_Address_Lookup st idx dlen dadr = (false, st) ∨
    ∃ i : Nat, (i : Int) = idx ∧ i < st.Devices.length ∧
      Routed_Device_Address_Lookup st idx dlen dadr =
        (true, { st with iCurrent_Device_Idx := i }) := by
  unfold Routed_Device_Address_Lookup
  dsimp only
  by_cases hr : 0 ≤ idx ∧ idx < (st.Devices.length : Int)
  · rw [if_pos hr]
    have hi : ((idx.toNat : Nat) : Int) = idx := by omega
    have hilen : idx.toNat < st.Devices.length := by omega
    by_cases hl : dlen = 0
    · rw [if_pos hl]
      exact Or.inr ⟨idx.toNat, hi, hilen, rfl⟩
    · rw [if_neg hl]
      cases dadr with
      | none => exact Or.inl rfl
      | some a =>
        dsimp only
        by_cases hm :
            addrOctetsMatch (st.Devices.getD idx.toNat default).bacDevAddr.adr a dlen = true
        · rw [if_pos hm]
          exact Or.inr ⟨idx.toNat, hi, hilen, rfl⟩
        · rw [if_neg hm]
          exact Or.inl rfl
  · rw [if_neg hr]
    exact Or.inl rfl

/-- On a valid slot, `Routed_Device_Address_Lookup` is decided by
`slotMatches`: on a match the context moves to the tested slot, otherwise
nothing changes. -/
theorem Address_Lookup_in_range (st : GatewayState) (i : Nat) (dest : BacnetAddress)
    (h : i < st.Devices.length) :
    Routed_Device_Address_Lookup st (i : Int) dest.len (some dest.adr) =
      if slotMatches st i dest then (true, { st with iCurrent_Device_Idx := i })
      else (false, st) := by
  unfold Routed_Device_Address_Lookup slotMatches
  have hr : (0 : Int) ≤ (i : Int) ∧ (i : Int) < (st.Devices.length : Int) := by omega
  rw [if_pos hr]
  dsimp only
  by_cases hl : dest.len = 0
  · simp [hl]
  · simp only [hl, if_neg hl, Int.toNat_natCast, Bool.false_or,
      decide_eq_true_eq, if_false]
    split <;> simp_all

/-- The scan loop finds exactly `firstMatchFrom`: a match at slot `j` stops
with cursor `j + 1` and context `j`; no match exhausts the table with the
state untouched. -/
theorem getNextScanLoop_eq (st : GatewayState) (dest : BacnetAddress) (i : Nat) :
    getNextScanLoop st dest i =
      match firstMatchFrom st dest i with
      | some j => (true, j + 1, { st with iCurrent_Device_Idx := j })
      | none => (false, max i st.Devices.length, st) := by
  have H : ∀ n i, st.Devices.length - i ≤ n →
      getNextScanLoop st dest i =
        match firstMatchFrom st dest i with
        | some j => (true, j + 1, { st with iCurrent_Device_Idx := j })
        | none => (false, max i st.Devices.length, st) := by
    intro n
    induction n with
    | zero =>
      intro i hle
      have h : ¬ i < st.Devices.length := by omega
      rw [getNextScanLoop, firstMatchFrom, if_neg h, if_neg h]
      have : max i st.Devices.length = i := Nat.max_eq_left (by omega)
      simp [this]
    | succ n ih =>
      intro i hle
      by_cases h : i < st.Devices.length
      · rw [getNextScanLoop, firstMatchFrom, if_pos h, if_pos h]
        simp only [Address_Lookup_in_range st i dest h]
        by_cases hm : slotMatches st i dest
        · simp [hm]
        · simp only [hm, if_neg, Bool.false_eq_true, if_false]
          rw [ih (i + 1) (by omega)]
          have hmax : max (i + 1) st.Devices.length = max i st.Devices.length := by
            omega
          simp [hmax]
      · have hle0 : st.Devices.length - i ≤ 0 := by omega
        rw [getNextScanLoop, firstMatchFrom, if_neg h, if_neg h]
        have : max i st.Devices.length = i := Nat.max_eq_left (by omega)
        simp [this]
  exact H st.Devices.length i (by omega)

/-- `firstMatchFrom` never returns a slot below its starting point. -/
theorem firstMatchFrom_ge (st : GatewayState) (dest : BacnetAddress) :
    ∀ i j, firstMatchFrom st dest i = some j → i ≤ j := by
  have H : ∀ n i j, st.Devices.length - i ≤ n →
      firstMatchFrom st dest i = some j → i ≤ j := by
    intro n
    induction n with
    | zero =>
      intro i j hle heq
      rw [firstMatchFrom, if_neg (by omega : ¬ i < st.Devices.length)] at heq
      exact absurd heq (by simp)
    | succ n ih =>
      intro i j hle heq
      by_cases h : i < st.Devices.length
      · rw [firstMatchFrom, if_pos h] at heq
        by_cases hm : slotMatches st i dest = true
        · rw [if_pos hm] at heq
          simp only [Option.some.injEq] at heq
          omega
        · rw [if_neg hm] at heq
          have := ih (i + 1) j (by omega) heq
          omega
      · rw [firstMatchFrom, if_neg h] at heq
        exact absurd heq (by simp)
  intro i j
  exact H st.Devices.length i j (by omega)

/-! ## C1 — broadcast-network destinations in `Routed_Device_GetNext` -/

/-- C1 (counterexample): the claim says that for a broadcast-network
destination the cursor after the call equals the incoming cursor plus one
*regardless of whether the match succeeded*.  With a broadcast-network
destination carrying a concrete (non-wildcard) MAC `[9,9]` that matches no
slot, a call with incoming cursor 0 (a valid slot: capacity is 3) returns with
the cursor set to the sentinel `-1`, not to `0 + 1`. -/
theorem C1_broadcast_cursor_cex :
    stTwo.Devices.length = 3 ∧
    (Routed_Device_GetNext stTwo ⟨2, [9, 9], 65535⟩ [10, -1] 0).2.1 = -1 ∧
    (Routed_Device_GetNext stTwo ⟨2, [9, 9], 65535⟩ [10, -1] 0).2.1 ≠ 0 + 1 := by
  decide

/-- C1 (amended): for a broadcast-network destination and a cursor naming a
valid slot, exactly the slot named by the cursor is tested via the Address
Matcher; on a successful match the cursor becomes the incoming cursor plus one
(normalized to the sentinel `-1` when it would equal the table capacity) and
the context moves to the tested slot, while on a failed match the cursor is
set to the sentinel `-1` with the state unchanged.  For MAC-broadcast
destinations (`dest.len = 0`) the match always succeeds, so repeated calls
under the sentinel-continuation rule do visit every slot exactly once. -/
theorem C1_broadcast_cursor_thm (st : GatewayState) (dest : BacnetAddress)
    (DNET_list : List Int) (cursor : Int)
    (hnet : dest.net = BACNET_BROADCAST_NETWORK)
    (h0 : 0 ≤ cursor) (hlt : cursor < (st.Devices.length : Int)) :
    (Routed_Device_GetNext st dest DNET_list cursor =
      if slotMatches st cursor.toNat dest then
        (true,
         if cursor.toNat + 1 = st.Devices.length then -1
         else ((cursor.toNat + 1 : Nat) : Int),
         { st with iCurrent_Device_Idx := cursor.toNat })
      else (false, -1, st)) ∧
    (dest.len = 0 → slotMatches st cursor.toNat dest = true) := by
  obtain ⟨c, rfl⟩ : ∃ c : Nat, cursor = (c : Int) := ⟨cursor.toNat, by omega⟩
  have hlen : c < st.Devices.length := by exact_mod_cast hlt
  constructor
  · unfold Routed_Device_GetNext
    rw [if_neg (by omega : ¬((c : Int) < 0 ∨ (st.Devices.length : Int) ≤ (c : Int)))]
    rw [if_pos hnet]
    dsimp only
    rw [Address_Lookup_in_range st c dest hlen]
    simp only [Int.toNat_natCast]
    by_cases hm : slotMatches st c dest = true
    · simp only [hm, if_true]
      by_cases he : c + 1 = st.Devices.length
      · rw [if_pos he, if_pos he]
        simp
      · rw [if_neg he, if_neg he]
        simp
    · simp [hm]
  · intro h
    simp [slotMatches, h]

/-- C1 (witness): on the two-device table, a MAC-broadcast destination with
the broadcast network number, called at cursor 1, matches slot 1 and advances
the cursor to 2. -/
theorem C1_broadcast_cursor_witness :
    Routed_Device_GetNext stTwo ⟨0, [], 65535⟩ [10, -1] 1 =
      (true, 2, { stTwo with iCurrent_Device_Idx := 1 }) := by
  have h := C1_broadcast_cursor_thm stTwo ⟨0, [], 65535⟩ [10, -1] 1
    rfl (by decide) (by decide)
  rw [h.1, if_pos (h.2 rfl)]
  decide

/-! ## C6 — network-0 (local) destinations in `Routed_Device_GetNext` -/

/-- C6: for a destination with logical network 0 and a cursor naming a valid
slot, `Routed_Device_GetNext` behaves exactly as a single Address-Matcher test
of slot 0 (so only slot 0 is tested, and on a match the context moves to 0),
and the cursor is set to the sentinel `-1` whether or not slot 0 matched. -/
theorem C6_local_terminates_thm (st : GatewayState) (dest : BacnetAddress)
    (DNET_list : List Int) (cursor : Int)
    (hnet : dest.net = 0) (h0 : 0 ≤ cursor)
    (hlt : cursor < (st.Devices.length : Int)) :
    Routed_Device_GetNext st dest DNET_list cursor =
      ((Routed_Device_Address_Lookup st 0 dest.len (some dest.adr)).1, -1,
       (Routed_Device_Address_Lookup st 0 dest.len (some dest.adr)).2) := by
  unfold Routed_Device_GetNext
  rw [if_neg (by omega : ¬(cursor < 0 ∨ (st.Devices.length : Int) ≤ cursor))]
  rw [if_neg (by simp [hnet, BACNET_BROADCAST_NETWORK])]
  rw [if_pos hnet]

/-- C6 (witness): on the two-device table with a network-0 destination whose
MAC `[9,9]` matches nothing, the call at cursor 1 tests slot 0, fails, and
still returns cursor `-1` with the state unchanged. -/
theorem C6_local_terminates_witness :
    Routed_Device_GetNext stTwo ⟨2, [9, 9], 0⟩ [10, -1] 1 = (false, -1, stTwo) := by
  rw [C6_local_terminates_thm stTwo ⟨2, [9, 9], 0⟩ [10, -1] 1 rfl (by decide) (by decide)]
  decide

/-! ## C7 — virtual-DNET destinations in `Routed_Device_GetNext` -/

/-- C7: for a destination addressed to the gateway's own virtual network
(`DNET_list[0]`, distinct from 0 and from the broadcast network) with a cursor
naming a valid slot, `Routed_Device_GetNext` never tests or matches slot 0: it
scans linearly from `max(cursor,1)`; on the first match `j` (necessarily
`1 ≤ j`) it returns true, moves the context to `j`, and sets the cursor one
past `j` (sentinel `-1` when that equals the table capacity); with no match it
returns false with the cursor at the sentinel and the state unchanged. -/
theorem C7_dnet_scan_thm (st : GatewayState) (dest : BacnetAddress)
    (DNET_list : List Int) (cursor : Int)
    (h0 : 0 ≤ cursor) (hlt : cursor < (st.Devices.length : Int))
    (hb : dest.net ≠ BACNET_BROADCAST_NETWORK) (hz : dest.net ≠ 0)
    (hd : (dest.net : Int) = DNET_list.getD 0 0) :
    match firstMatchFrom st dest (max cursor.toNat 1) with
    | some j =>
        1 ≤ j ∧
        Routed_Device_GetNext st dest DNET_list cursor =
          (true,
           if j + 1 = st.Devices.length then -1 else ((j + 1 : Nat) : Int),
           { st with iCurrent_Device_Idx := j })
    | none =>
        Routed_Device_GetNext st dest DNET_list cursor = (false, -1, st) := by
  have hstart : (if cursor.toNat = 0 then 1 else cursor.toNat) = max cursor.toNat 1 := by
    by_cases h : cursor.toNat = 0
    · simp [h]
    · rw [if_neg h, Nat.max_eq_left (by omega)]
  have hge : Routed_Device_GetNext st dest DNET_list cursor =
      (let r := getNextScanLoop st dest (max cursor.toNat 1)
       if !r.1 then (false, -1, r.2.2)
       else if r.2.1 = st.Devices.length then (true, -1, r.2.2)
       else (true, (r.2.1 : Int), r.2.2)) := by
    unfold Routed_Device_GetNext
    rw [if_neg (by omega : ¬(cursor < 0 ∨ (st.Devices.length : Int) ≤ cursor))]
    rw [if_neg hb, if_neg hz, if_pos hd]
    dsimp only
    rw [hstart]
  rw [hge, getNextScanLoop_eq]
  cases hfm : firstMatchFrom st dest (max cursor.toNat 1) with
  | none => simp
  | some j =>
    have hj : max cursor.toNat 1 ≤ j := firstMatchFrom_ge st dest _ j hfm
    refine ⟨by omega, ?_⟩
    dsimp only
    by_cases he : j + 1 = st.Devices.length
    · rw [if_pos he]
      simp [he]
    · rw [if_neg he]
      simp [he]

/-- C7 (witness): on the two-device table (virtual network 10), a destination
with network 10 and slot 1's MAC `[3,4]`, called at cursor 0, scans from slot
1, matches it (never testing slot 0), moves the context to slot 1, and sets
the cursor to 2. -/
theorem C7_dnet_scan_witness :
    firstMatchFrom stTwo ⟨2, [3, 4], 10⟩ (max (0 : Int).toNat 1) = some 1 ∧
    Routed_Device_GetNext stTwo ⟨2, [3, 4], 10⟩ [10, -1] 0 =
      (true, 2, { stTwo with iCurrent_Device_Idx := 1 }) := by
  have h := C7_dnet_scan_thm stTwo ⟨2, [3, 4], 10⟩ [10, -1] 0
    (by decide) (by decide) (by decide) (by decide) (by decide)
  have hfm : firstMatchFrom stTwo ⟨2, [3, 4], 10⟩ (max (0 : Int).toNat 1) = some 1 := by
    rw [firstMatchFrom, firstMatchFrom]
    decide
  rw [hfm] at h
  refine ⟨hfm, ?_⟩
  rw [h.2]
  decide

/-! ## C4 — `Routed_Device_Is_Valid_Network` -/

/-- C4 (counterexample): the claim says `is_reachable` is true when the
destination network is *present in* the `-1`-terminated `DNET_list`.  With
`DNET_list = [5, 7, -1]`, network 7 is in the list (as `is_reachable_spec`,
written from the spec's words, confirms), yet the code returns false: only
`DNET_list[0]` is ever consulted. -/
theorem C4_reachability_cex :
    is_reachable_spec 7 [5, 7, -1] = true ∧
    Routed_Device_Is_Valid_Network 7 [5, 7, -1] = false := by
  decide

/-- C4 (amended): `Routed_Device_Is_Valid_Network` returns true iff the
destination network equals the broadcast network number, or equals 0, or
equals the *first* entry `DNET_list[0]` of the gateway's reachable-network
list (entries past the head are never read).  It is pure by construction: it
takes no `GatewayState` and can neither read the table nor change the
context. -/
theorem C4_reachability_thm (dest_net : Nat) (DNET_list : List Int) :
    Routed_Device_Is_Valid_Network dest_net DNET_list = true ↔
      (dest_net = BACNET_BROADCAST_NETWORK ∨ dest_net = 0 ∨
       (dest_net : Int) = DNET_list.getD 0 0) := by
  unfold Routed_Device_Is_Valid_Network
  dsimp only
  by_cases h1 : dest_net = BACNET_BROADCAST_NETWORK
  · simp [h1]
  · rw [if_neg h1]
    by_cases h2 : dest_net = 0
    · simp [h2]
    · rw [if_neg h2]
      by_cases h3 : (dest_net : Int) = DNET_list.getD 0 0
      · simp [h3]
      · simp [h1, h2, h3]

/-! ## C3 — `Routed_Device_Instance_To_Index` / instance lookup -/

/-- The scan returns the index of the first match when nothing before it
matches. -/
theorem instanceScan_first (q : Nat) (l : List DeviceObjectData) :
    ∀ j, j < l.length →
      (l.getD j default).Object_Instance_Number = q →
      (∀ i, i < j → (l.getD i default).Object_Instance_Number ≠ q) →
      instanceScan q l = some j := by
  induction l with
  | nil =>
    intro j hj _ _
    simp at hj
  | cons d rest ih =>
    intro j hj hmatch hbefore
    cases j with
    | zero =>
      simp only [List.getD_cons_zero] at hmatch
      rw [instanceScan, if_pos hmatch]
    | succ k =>
      have hd : d.Object_Instance_Number ≠ q := by
        have := hbefore 0 (by omega)
        simpa using this
      rw [instanceScan, if_neg hd]
      simp only [List.getD_cons_succ] at hmatch
      have hk : instanceScan q rest = some k := by
        refine ih k (by simpa using hj) hmatch ?_
        intro i hi
        have := hbefore (i + 1) (by omega)
        simpa using this
      rw [hk]
      rfl

/-- The scan returns `none` when no slot at all matches. -/
theorem instanceScan_none (q : Nat) (l : List DeviceObjectData)
    (h : ∀ i, i < l.length → (l.getD i default).Object_Instance_Number ≠ q) :
    instanceScan q l = none := by
  induction l with
  | nil => rfl
  | cons d rest ih =>
    have hd : d.Object_Instance_Number ≠ q := by
      have := h 0 (by simp)
      simpa using this
    rw [instanceScan, if_neg hd]
    have hrest : instanceScan q rest = none := by
      refine ih ?_
      intro i hi
      have := h (i + 1) (by simpa using Nat.succ_lt_succ hi)
      simpa using this
    rw [hrest]
    rfl

/-- C3 (counterexample): the claim says the scan "returns slot 0 whenever no
occupied record matches".  On a table with one occupied slot (the gateway,
instance 100) and capacity 2, the occupied slots are trivially
pairwise-distinct and none carries instance 0 — yet the scan for instance 0
returns the *unoccupied*, zero-initialized slot 1, not slot 0, and the
instance-validity check even accepts instance 0. -/
theorem C3_instance_scan_cex :
    (∀ i, i < stOne.Num_Managed_Devices →
      (stOne.Devices.getD i default).Object_Instance_Number ≠ 0) ∧
    Routed_Device_Instance_To_Index stOne 0 = 1 ∧
    Routed_Device_Instance_To_Index stOne 0 ≠ 0 ∧
    (Routed_Device_Valid_Object_Instance_Number stOne 0).1 = true := by
  decide

/-- C3 (amended): the scan runs over the *entire* capacity array, occupied or
not.  When the occupied slots have pairwise-distinct instance numbers, a query
carried by occupied slot `j` returns exactly `j`; and the scan returns slot 0
exactly when *no slot of the whole array* (not merely no occupied slot)
matches the query.  A query matching only an unoccupied, default-initialized
slot returns that unoccupied slot instead of 0. -/
theorem C3_instance_scan_thm (st : GatewayState) (q : Nat)
    (hnum : st.Num_Managed_Devices ≤ st.Devices.length)
    (hdist : ∀ a, a < st.Num_Managed_Devices → ∀ b, b < st.Num_Managed_Devices →
      a ≠ b → (st.Devices.getD a default).Object_Instance_Number ≠
              (st.Devices.getD b default).Object_Instance_Number) :
    (∀ j, j < st.Num_Managed_Devices →
      (st.Devices.getD j default).Object_Instance_Number = q →
      Routed_Device_Instance_To_Index st q = j) ∧
    ((∀ i, i < st.Devices.length →
        (st.Devices.getD i default).Object_Instance_Number ≠ q) →
      Routed_Device_Instance_To_Index st q = 0) := by
  constructor
  · intro j hj hmatch
    unfold Routed_Device_Instance_To_Index
    have hscan : instanceScan q st.Devices = some j := by
      refine instanceScan_first q st.Devices j (by omega) hmatch ?_
      intro i hi
      have := hdist i (by omega) j hj (by omega)
      rw [hmatch] at this
      exact this
    rw [hscan]
    rfl
  · intro hnone
    unfold Routed_Device_Instance_To_Index
    rw [instanceScan_none q st.Devices hnone]
    rfl

/-- C3 (witness): on the two-device table, searching for occupied instance
200 returns its slot 1, and a query (999) matching no slot at all returns
slot 0. -/
theorem C3_instance_scan_witness :
    Routed_Device_Instance_To_Index stTwo 200 = 1 ∧
    Routed_Device_Instance_To_Index stTwo 999 = 0 := by
  have h200 := (C3_instance_scan_thm stTwo 200 (by decide)
    (by decide)).1 1 (by decide) (by decide)
  have h999 := (C3_instance_scan_thm stTwo 999 (by decide)
    (by decide)).2 (by decide)
  exact ⟨h200, h999⟩

/-! ## C10 — `Routed_Device_Valid_Object_Instance_Number` moves the context -/

/-- C10: the validity check assigns the context the scan result *before*
checking it — the context after any call equals
`Routed_Device_Instance_To_Index`'s result, and the returned boolean merely
reports whether the record there carries the queried instance.  In
particular, on the two-device table with the context at slot 1, the failing
query 999 still moves the context (to the scan's default, slot 0): a failed
validity check is not context-preserving. -/
theorem C10_context_moved_thm :
    (∀ st id,
      (Routed_Device_Valid_Object_Instance_Number st id).2.iCurrent_Device_Idx =
        Routed_Device_Instance_To_Index st id ∧
      ((Routed_Device_Valid_Object_Instance_Number st id).1 = true ↔
        (st.Devices.getD (Routed_Device_Instance_To_Index st id)
          default).Object_Instance_Number = id)) ∧
    stTwoAt1.iCurrent_Device_Idx = 1 ∧
    (Routed_Device_Valid_Object_Instance_Number stTwoAt1 999).1 = false ∧
    (Routed_Device_Valid_Object_Instance_Number stTwoAt1 999).2.iCurrent_Device_Idx = 0 := by
  refine ⟨?_, by decide, by decide, by decide⟩
  intro st id
  refine ⟨rfl, ?_⟩
  unfold Routed_Device_Valid_Object_Instance_Number
  dsimp only
  simp

/-! ## C8 — `Routed_Device_Service_Approval` -/

/-- C8: for both administrative services (reinitialize-device and
device-communication-control) the approval result is non-zero exactly when
the context names a non-zero slot — an encoded reject reply with reason
unrecognized-service (length 3) when a buffer is supplied, the bare length 1
when not — and is the approval 0 (with nothing written) when the context
names slot 0; every other service is unconditionally approved with 0. -/
theorem C8_service_gate_thm (st : GatewayState) (service : BacnetService)
    (apdu_buff : Bool) (invoke_id : Nat) :
    ((service = .reinitializeDevice ∨ service = .deviceCommunicationControl) →
      ((0 < st.iCurrent_Device_Idx →
          Routed_Device_Service_Approval st service apdu_buff invoke_id =
            (if apdu_buff then
              ((reject_encode_apdu invoke_id REJECT_REASON_UNRECOGNIZED_SERVICE).length,
               some (reject_encode_apdu invoke_id REJECT_REASON_UNRECOGNIZED_SERVICE))
             else (1, none))) ∧
       (st.iCurrent_Device_Idx = 0 →
          Routed_Device_Service_Approval st service apdu_buff invoke_id = (0, none)) ∧
       ((Routed_Device_Service_Approval st service apdu_buff invoke_id).1 ≠ 0 ↔
          0 < st.iCurrent_Device_Idx))) ∧
    (∀ n, service = .otherService n →
      Routed_Device_Service_Approval st service apdu_buff invoke_id = (0, none)) := by
  constructor
  · intro hadm
    have key : Routed_Device_Service_Approval st service apdu_buff invoke_id =
        if 0 < st.iCurrent_Device_Idx then
          (if apdu_buff then
            ((reject_encode_apdu invoke_id REJECT_REASON_UNRECOGNIZED_SERVICE).length,
             some (reject_encode_apdu invoke_id REJECT_REASON_UNRECOGNIZED_SERVICE))
           else (1, none))
        else (0, none) := by
      rcases hadm with rfl | rfl <;> rfl
    refine ⟨?_, ?_, ?_⟩
    · intro hidx
      rw [key, if_pos hidx]
    · intro hidx
      rw [key, if_neg (by omega)]
    · rw [key]
      by_cases hidx : 0 < st.iCurrent_Device_Idx
      · rw [if_pos hidx]
        cases apdu_buff <;> simp [reject_encode_apdu, hidx]
      · rw [if_neg hidx]
        simp
        omega
  · intro n hn
    subst hn
    rfl

/-- C8 (witness): with the context at slot 1, reinitialize-device with a
supplied buffer is rejected with the 3-octet unrecognized-service reply; with
the context at slot 0, device-communication-control is approved with 0. -/
theorem C8_service_gate_witness :
    Routed_Device_Service_Approval stTwoAt1 .reinitializeDevice true 55 =
      (3, some [96, 55, 9]) ∧
    Routed_Device_Service_Approval stTwo .deviceCommunicationControl true 55 =
      (0, none) := by
  have h1 := (C8_service_gate_thm stTwoAt1 .reinitializeDevice true 55).1 (Or.inl rfl)
  have h2 := (C8_service_gate_thm stTwo .deviceCommunicationControl true 55).1 (Or.inr rfl)
  constructor
  · rw [h1.1 (by decide)]
    decide
  · exact h2.2.1 (by decide)

/-! ## C2 — where the context can point after each operation -/

/-- `updateDevice` changes only the table contents. -/
theorem updateDevice_frame (st : GatewayState) (i : Nat) (f : DeviceObjectData → DeviceObjectData) :
    (updateDevice st i f).iCurrent_Device_Idx = st.iCurrent_Device_Idx ∧
    (updateDevice st i f).Num_Managed_Devices = st.Num_Managed_Devices ∧
    (updateDevice st i f).Devices.length = st.Devices.length := by
  refine ⟨rfl, rfl, ?_⟩
  simp [updateDevice]

/-- `Routed_Device_Set_Object_Name` never moves the context, the device count,
or the table capacity. -/
theorem Set_Object_Name_frame (st : GatewayState) (e : Nat) (v : String) (l : Nat) :
    ((Routed_Device_Set_Object_Name st e v l).2).iCurrent_Device_Idx =
      st.iCurrent_Device_Idx ∧
    ((Routed_Device_Set_Object_Name st e v l).2).Num_Managed_Devices =
      st.Num_Managed_Devices ∧
    ((Routed_Device_Set_Object_Name st e v l).2).Devices.length =
      st.Devices.length := by
  unfold Routed_Device_Set_Object_Name Routed_Device_Inc_Database_Revision
  split
  · exact ⟨rfl, rfl, by simp [updateDevice]⟩
  · exact ⟨rfl, rfl, rfl⟩

/-- `Routed_Device_Set_Description` never moves the context, the device count,
or the table capacity. -/
theorem Set_Description_frame (st : GatewayState) (v : String) (l : Nat) :
    ((Routed_Device_Set_Description st v l).2).iCurrent_Device_Idx =
      st.iCurrent_Device_Idx ∧
    ((Routed_Device_Set_Description st v l).2).Num_Managed_Devices =
      st.Num_Managed_Devices ∧
    ((Routed_Device_Set_Description st v l).2).Devices.length =
      st.Devices.length := by
  unfold Routed_Device_Set_Description
  split
  · exact ⟨rfl, rfl, by simp [updateDevice]⟩
  · exact ⟨rfl, rfl, rfl⟩

/-- A successful `instanceScan` index is inside the table. -/
theorem instanceScan_lt (q : Nat) (l : List DeviceObjectData) :
    ∀ i, instanceScan q l = some i → i < l.length := by
  induction l with
  | nil =>
    intro i h
    exact absurd h (by simp [instanceScan])
  | cons d rest ih =>
    intro i h
    rw [instanceScan] at h
    by_cases hd : d.Object_Instance_Number = q
    · rw [if_pos hd] at h
      simp only [Option.some.injEq] at h
      simp [← h]
    · rw [if_neg hd] at h
      cases hr : instanceScan q rest with
      | none =>
        rw [hr] at h
        simp at h
      | some k =>
        rw [hr] at h
        simp at h
        have hk := ih k hr
        simp only [List.length_cons]
        omega

/-- On a non-empty table the instance scan always lands inside the table. -/
theorem Instance_To_Index_lt (st : GatewayState) (q : Nat)
    (h : 0 < st.Devices.length) :
    Routed_Device_Instance_To_Index st q < st.Devices.length := by
  unfold Routed_Device_Instance_To_Index
  cases hs : instanceScan q st.Devices with
  | none => simpa using h
  | some i => simpa using instanceScan_lt q st.Devices i hs

/-- A successful `firstMatchFrom` index is inside the table. -/
theorem firstMatchFrom_lt (st : GatewayState) (dest : BacnetAddress) :
    ∀ i j, firstMatchFrom st dest i = some j → j < st.Devices.length := by
  have H : ∀ n i j, st.Devices.length - i ≤ n →
      firstMatchFrom st dest i = some j → j < st.Devices.length := by
    intro n
    induction n with
    | zero =>
      intro i j hle heq
      rw [firstMatchFrom, if_neg (by omega : ¬ i < st.Devices.length)] at heq
      exact absurd heq (by simp)
    | succ n ih =>
      intro i j hle heq
      by_cases h : i < st.Devices.length
      · rw [firstMatchFrom, if_pos h] at heq
        by_cases hm : slotMatches st i dest = true
        · rw [if_pos hm] at heq
          simp only [Option.some.injEq] at heq
          omega
        · rw [if_neg hm] at heq
          exact ih (i + 1) j (by omega) heq
      · rw [firstMatchFrom, if_neg h] at heq
        exact absurd heq (by simp)
  intro i j
  exact H st.Devices.length i j (by omega)

/-- C2 (counterexample): the claim says that once the table is non-empty,
every core operation leaves the context on an *occupied* slot (index <
`Num_Managed_Devices`).  On a table of capacity 3 with one occupied slot,
`Get_Routed_Device_Object 2` accepts index 2 (its bound is the capacity,
not the occupancy count) and parks the context on the unoccupied slot 2. -/
theorem C2_context_occupied_cex :
    1 ≤ stOneOfThree.Num_Managed_Devices ∧
    (Get_Routed_Device_Object stOneOfThree 2).2.iCurrent_Device_Idx = 2 ∧
    ¬((Get_Routed_Device_Object stOneOfThree 2).2.iCurrent_Device_Idx <
        stOneOfThree.Num_Managed_Devices) := by
  decide

/-- C2 (amended): every core operation (add, get by explicit index, get
address by explicit index, address lookup, get-next, instance-validity check)
leaves the context strictly below the table *capacity* `MAX_NUM_DEVICES` —
but not necessarily below the occupancy count: the explicit-index accessors
bound-check against the capacity and will park the context on an unoccupied
slot. -/
theorem C2_context_bound_thm (st : GatewayState)
    (hcur : st.iCurrent_Device_Idx < st.Devices.length) :
    (∀ inst n d,
      (Add_Routed_Device st inst n d).2.iCurrent_Device_Idx < st.Devices.length) ∧
    (∀ idx,
      (Get_Routed_Device_Object st idx).2.iCurrent_Device_Idx < st.Devices.length) ∧
    (∀ idx,
      (Get_Routed_Device_Address st idx).2.iCurrent_Device_Idx < st.Devices.length) ∧
    (∀ idx dlen dadr,
      (Routed_Device_Address_Lookup st idx dlen dadr).2.iCurrent_Device_Idx <
        st.Devices.length) ∧
    (∀ dest DNET_list cursor,
      (Routed_Device_GetNext st dest DNET_list cursor).2.2.iCurrent_Device_Idx <
        st.Devices.length) ∧
    (∀ id,
      (Routed_Device_Valid_Object_Instance_Number st id).2.iCurrent_Device_Idx <
        st.Devices.length) := by
  have hlookup : ∀ idx dlen dadr,
      (Routed_Device_Address_Lookup st idx dlen dadr).2.iCurrent_Device_Idx <
        st.Devices.length := by
    intro idx dlen dadr
    rcases Address_Lookup_cases st idx dlen dadr with hc | ⟨i, _, hilen, hc⟩
    · rw [hc]; exact hcur
    · rw [hc]; exact hilen
  refine ⟨?_, ?_, ?_, hlookup, ?_, ?_⟩
  · intro inst n d
    unfold Add_Routed_Device
    by_cases h : st.Num_Managed_Devices < st.Devices.length
    · rw [if_pos h]
      dsimp only
      rcases updateDevice_frame
        { st with Num_Managed_Devices := (st.Num_Managed_Devices + 1) % 65536,
                  iCurrent_Device_Idx := st.Num_Managed_Devices }
        st.Num_Managed_Devices
        (fun d => { d with mObject_Type := OBJECT_DEVICE,
                           Object_Instance_Number := inst }) with ⟨h2c, _, _⟩
      cases n with
      | none =>
        cases d with
        | none =>
          simp only [updateDevice_frame, Set_Object_Name_frame, Set_Description_frame]
          simpa [(updateDevice_frame _ _ _).1, (Set_Object_Name_frame _ _ _ _).1,
            (Set_Description_frame _ _ _).1, h2c] using h
        | some s =>
          simpa [(updateDevice_frame _ _ _).1, (Set_Object_Name_frame _ _ _ _).1,
            (Set_Description_frame _ _ _).1, h2c] using h
      | some s =>
        cases d with
        | none =>
          simpa [(updateDevice_frame _ _ _).1, (Set_Object_Name_frame _ _ _ _).1,
            (Set_Description_frame _ _ _).1, h2c] using h
        | some s2 =>
          simpa [(updateDevice_frame _ _ _).1, (Set_Object_Name_frame _ _ _ _).1,
            (Set_Description_frame _ _ _).1, h2c] using h
    · rw [if_neg h]
      exact hcur
  · intro idx
    unfold Get_Routed_Device_Object
    by_cases h1 : idx = -1
    · rw [if_pos h1]; exact hcur
    · rw [if_neg h1]
      by_cases h2 : 0 ≤ idx ∧ idx < (st.Devices.length : Int)
      · rw [if_pos h2]
        dsimp only
        omega
      · rw [if_neg h2]; exact hcur
  · intro idx
    unfold Get_Routed_Device_Address
    by_cases h1 : idx = -1
    · rw [if_pos h1]; exact hcur
    · rw [if_neg h1]
      by_cases h2 : 0 ≤ idx ∧ idx < (st.Devices.length : Int)
      · rw [if_pos h2]
        dsimp only
        omega
      · rw [if_neg h2]; exact hcur
  · intro dest DNET_list cursor
    unfold Routed_Device_GetNext
    dsimp only
    by_cases h1 : cursor < 0 ∨ (st.Devices.length : Int) ≤ cursor
    · rw [if_pos h1]; exact hcur
    · rw [if_neg h1]
      by_cases h2 : dest.net = BACNET_BROADCAST_NETWORK
      · rw [if_pos h2]
        rcases Address_Lookup_cases st cursor dest.len (some dest.adr) with
          hc | ⟨i, _, hilen, hc⟩
        · rw [hc]; simpa using hcur
        · rw [hc]
          by_cases he : cursor.toNat + 1 = st.Devices.length <;>
            simp [he, hilen]
      · rw [if_neg h2]
        by_cases h3 : dest.net = 0
        · rw [if_pos h3]
          rcases Address_Lookup_cases st 0 dest.len (some dest.adr) with
            hc | ⟨i, _, hilen, hc⟩
          · rw [hc]; exact hcur
          · rw [hc]; exact hilen
        · rw [if_neg h3]
          by_cases h4 : (dest.net : Int) = DNET_list.getD 0 0
          · rw [if_pos h4]
            rw [getNextScanLoop_eq]
            cases hfm : firstMatchFrom st dest
                (if cursor.toNat = 0 then 1 else cursor.toNat) with
            | none => simpa using hcur
            | some j =>
              have hjlen := firstMatchFrom_lt st dest _ j hfm
              by_cases he : j + 1 = st.Devices.length <;>
                simp [he, hjlen]
          · rw [if_neg h4]; exact hcur
  · intro id
    have h0 : 0 < st.Devices.length := by omega
    exact Instance_To_Index_lt st id h0

/-- C2 (witness): on the one-occupied-of-three table (context 0 < capacity
3), resolving explicit index 1 leaves the context at 1, below the capacity. -/
theorem C2_context_bound_witness :
    (Get_Routed_Device_Object stOneOfThree 1).2.iCurrent_Device_Idx <
      stOneOfThree.Devices.length := by
  exact (C2_context_bound_thm stOneOfThree (by decide)).2.1 1

/-! ## C5 — `Add_Routed_Device` append and capacity behavior -/

theorem updateDevice_iCurrent (st : GatewayState) (k : Nat)
    (f : DeviceObjectData → DeviceObjectData) :
    (updateDevice st k f).iCurrent_Device_Idx = st.iCurrent_Device_Idx := rfl

theorem updateDevice_Num (st : GatewayState) (k : Nat)
    (f : DeviceObjectData → DeviceObjectData) :
    (updateDevice st k f).Num_Managed_Devices = st.Num_Managed_Devices := rfl

theorem updateDevice_length (st : GatewayState) (k : Nat)
    (f : DeviceObjectData → DeviceObjectData) :
    (updateDevice st k f).Devices.length = st.Devices.length := by
  simp [updateDevice]

theorem updateDevice_getD_self (st : GatewayState) (k : Nat)
    (f : DeviceObjectData → DeviceObjectData) (h : k < st.Devices.length) :
    (updateDevice st k f).Devices.getD k default = f (st.Devices.getD k default) := by
  simp only [updateDevice]
  exact getD_set_self _ _ _ _ h

theorem updateDevice_getD_ne (st : GatewayState) (k j : Nat)
    (f : DeviceObjectData → DeviceObjectData) (h : k ≠ j) :
    (updateDevice st k f).Devices.getD j default = st.Devices.getD j default := by
  simp only [updateDevice]
  exact getD_set_ne _ _ _ _ _ h

/-- Unfolding of a name write whose arguments pass the validity test. -/
theorem Set_Object_Name_valid_eq (st : GatewayState) (e : Nat) (v : String) (l : Nat)
    (h1 : e = CHARACTER_UTF8) (h2 : l < MAX_DEV_NAME_LEN) :
    (Routed_Device_Set_Object_Name st e v l).2 =
      Routed_Device_Inc_Database_Revision
        (updateDevice st st.iCurrent_Device_Idx
          (fun d => { d with Object_Name := v.take l })) := by
  rw [Routed_Device_Set_Object_Name, if_pos ⟨h1, h2⟩]

/-- Unfolding of a description write whose length passes the validity test. -/
theorem Set_Description_valid_eq (st : GatewayState) (v : String) (l : Nat)
    (h : l < MAX_DEV_DESC_LEN) :
    (Routed_Device_Set_Description st v l).2 =
      updateDevice st st.iCurrent_Device_Idx
        (fun d => { d with Description := v.take l }) := by
  rw [Routed_Device_Set_Description, if_pos h]

/-- C5: with absent name and description, `Add_Routed_Device` appends exactly
when the table holds fewer than `MAX_NUM_DEVICES` records: it returns the new
slot's index, increments the device count, moves the context to the new slot,
and writes there a record with the requested instance number, default name
"No Name", default description "No Descr", database revision 0 (every other
slot unchanged, capacity unchanged); when the table is full it returns the
distinguished index `UINT16_MAX` (65535) with the state completely unchanged.
(The capacity bound 65535 only rules out `uint16_t` wraparound of the device
counter, impossible in any real configuration.) -/
theorem C5_add_capacity_thm (st : GatewayState) (inst : Nat)
    (hcap : st.Devices.length ≤ 65535) :
    (st.Num_Managed_Devices < st.Devices.length →
      (Add_Routed_Device st inst none none).1 = st.Num_Managed_Devices ∧
      (Add_Routed_Device st inst none none).2.Num_Managed_Devices =
        st.Num_Managed_Devices + 1 ∧
      (Add_Routed_Device st inst none none).2.iCurrent_Device_Idx =
        st.Num_Managed_Devices ∧
      (Add_Routed_Device st inst none none).2.Devices.length = st.Devices.length ∧
      (Add_Routed_Device st inst none none).2.Devices.getD
          st.Num_Managed_Devices default =
        { mObject_Type := OBJECT_DEVICE,
          Object_Instance_Number := inst,
          Object_Name := "No Name",
          Description := "No Descr",
          Database_Revision := 0,
          bacDevAddr :=
            (st.Devices.getD st.Num_Managed_Devices default).bacDevAddr } ∧
      (∀ j, j ≠ st.Num_Managed_Devices →
        (Add_Routed_Device st inst none none).2.Devices.getD j default =
          st.Devices.getD j default)) ∧
    (st.Devices.length ≤ st.Num_Managed_Devices →
      Add_Routed_Device st inst none none = (65535, st)) := by
  constructor
  · intro h
    have hnum : (st.Num_Managed_Devices + 1) % 65536 = st.Num_Managed_Devices + 1 :=
      Nat.mod_eq_of_lt (by omega)
    have htake1 : "No Name".take "No Name".length = "No Name" := by decide
    have htake2 : "No Descr".take "No Descr".length = "No Descr" := by decide
    simp only [Add_Routed_Device, if_pos h]
    rw [Set_Object_Name_valid_eq _ _ _ _ rfl (by decide)]
    rw [Set_Description_valid_eq _ _ _ (by decide)]
    simp only [Routed_Device_Inc_Database_Revision, updateDevice_iCurrent]
    simp only [updateDevice_Num, updateDevice_length, updateDevice_iCurrent, hnum,
      htake1, htake2]
    refine ⟨trivial, trivial, trivial, trivial, ?_, ?_⟩
    · rw [updateDevice_getD_self _ _ _ (by simp only [updateDevice_length]; exact h)]
      rw [updateDevice_getD_self _ _ _ (by simp only [updateDevice_length]; exact h)]
      rw [updateDevice_getD_self _ _ _ (by simp only [updateDevice_length]; exact h)]
      rw [updateDevice_getD_self _ _ _ (by simp only [updateDevice_length]; exact h)]
      rw [updateDevice_getD_self
        ⟨st.Devices, st.Num_Managed_Devices + 1, st.Num_Managed_Devices⟩ _ _ h]
    · intro j hj
      rw [updateDevice_getD_ne _ _ _ _ (by omega)]
      rw [updateDevice_getD_ne _ _ _ _ (by omega)]
      rw [updateDevice_getD_ne _ _ _ _ (by omega)]
      rw [updateDevice_getD_ne _ _ _ _ (by omega)]
      rw [updateDevice_getD_ne _ _ _ _ (by omega)]
  · intro h
    rw [Add_Routed_Device, if_neg (by omega)]

/-- C5 (witness): adding instance 300 to the two-of-three table appends at
slot 2 with the defaults and revision 0, and adding to the full two-slot
table returns 65535 leaving the state untouched. -/
theorem C5_add_capacity_witness :
    (Add_Routed_Device stTwo 300 none none).1 = 2 ∧
    (Add_Routed_Device stTwo 300 none none).2.Devices.getD 2 default =
      { mObject_Type := OBJECT_DEVICE, Object_Instance_Number := 300,
        Object_Name := "No Name", Description := "No Descr",
        Database_Revision := 0, bacDevAddr := ⟨0, [], 0⟩ } ∧
    Add_Routed_Device stFull 301 none none = (65535, stFull) := by
  have hs := (C5_add_capacity_thm stTwo 300 (by decide)).1 (by decide)
  have hf := (C5_add_capacity_thm stFull 301 (by decide)).2 (by decide)
  refine ⟨hs.1, ?_, hf⟩
  rw [show (2 : Nat) = stTwo.Num_Managed_Devices from rfl, hs.2.2.2.2.1]
  decide

/-! ## C9 — `Routed_Device_Write_Property_Local` failure paths -/

/-- A failed string validation reports the property-class, value-out-of-range
error on the request. -/
theorem write_property_string_valid_fail (wp : WPData) (v : AppValue) (m : Nat)
    (h : (write_property_string_valid wp v m).1 = false) :
    (write_property_string_valid wp v m).2 =
      { wp with error_class := ERROR_CLASS_PROPERTY,
                error_code := ERROR_CODE_VALUE_OUT_OF_RANGE } := by
  unfold write_property_string_valid at h ⊢
  cases v with
  | characterString e s =>
    dsimp only at h ⊢
    split at h
    · exact absurd h (by simp)
    · split
      · simp_all
      · rfl
  | objectId t i => rfl
  | otherTagged t => rfl

/-- C9: a decode failure (negative decoded length) makes
`Routed_Device_Write_Property_Local` return failure with error class
"property" and error code "value out of range" and leaves every device record
untouched; a validation failure on the object-identifier path (wrong object
type, or an instance number beyond the 22-bit ceiling) and a validation
failure on the object-name path do the same. -/
theorem C9_write_error_thm (decode : List Nat → Int × AppValue)
    (device_wpl : WPData → Bool × WPData) (st : GatewayState) (wp : WPData) :
    ((decode wp.application_data).1 < 0 →
      Routed_Device_Write_Property_Local decode device_wpl st wp =
        (false,
         { wp with error_class := ERROR_CLASS_PROPERTY,
                   error_code := ERROR_CODE_VALUE_OUT_OF_RANGE }, st)) ∧
    (0 ≤ (decode wp.application_data).1 →
      wp.object_property = PROP_OBJECT_IDENTIFIER →
      ∀ t i, (decode wp.application_data).2 = AppValue.objectId t i →
      (t ≠ OBJECT_DEVICE ∨ BACNET_MAX_INSTANCE < i) →
      (Routed_Device_Write_Property_Local decode device_wpl st wp).1 = false ∧
      (Routed_Device_Write_Property_Local decode device_wpl st wp).2.1.error_class =
        ERROR_CLASS_PROPERTY ∧
      (Routed_Device_Write_Property_Local decode device_wpl st wp).2.1.error_code =
        ERROR_CODE_VALUE_OUT_OF_RANGE ∧
      (Routed_Device_Write_Property_Local decode device_wpl st wp).2.2 = st) ∧
    (0 ≤ (decode wp.application_data).1 →
      wp.object_property = PROP_OBJECT_NAME →
      (write_property_string_valid wp (decode wp.application_data).2
        MAX_DEV_NAME_LEN).1 = false →
      Routed_Device_Write_Property_Local decode device_wpl st wp =
        (false,
         { wp with error_class := ERROR_CLASS_PROPERTY,
                   error_code := ERROR_CODE_VALUE_OUT_OF_RANGE }, st)) := by
  refine ⟨?_, ?_, ?_⟩
  · intro hdec
    unfold Routed_Device_Write_Property_Local
    dsimp only
    rw [if_pos hdec]
  · intro hdec hp t i hval hbad
    have hcond : (AppValue.objectId t i).tag = BACNET_APPLICATION_TAG_OBJECT_ID := rfl
    have htv : write_property_type_valid wp (AppValue.objectId t i)
        BACNET_APPLICATION_TAG_OBJECT_ID = (true, wp) := by
      rw [write_property_type_valid, if_pos hcond]
    unfold Routed_Device_Write_Property_Local
    dsimp only
    rw [if_neg (by omega), if_pos hp, hval, htv]
    dsimp only
    by_cases ht : t = OBJECT_DEVICE
    · rw [if_pos ht]
      have hbig : BACNET_MAX_INSTANCE < i := by
        rcases hbad with hb | hb
        · exact absurd ht hb
        · exact hb
      have hr : Routed_Device_Set_Object_Instance_Number st i = (false, st) := by
        rw [Routed_Device_Set_Object_Instance_Number, if_neg (by omega)]
      rw [hr]
      exact ⟨rfl, rfl, rfl, rfl⟩
    · rw [if_neg ht]
      exact ⟨rfl, rfl, rfl, rfl⟩
  · intro hdec hp hsv
    unfold Routed_Device_Write_Property_Local
    dsimp only
    rw [if_neg (by omega), if_neg (by rw [hp]; decide), if_pos hp]
    rw [if_neg (by rw [hsv]; exact Bool.false_ne_true)]
    rw [write_property_string_valid_fail wp _ _ hsv]

/-- C9 (witness): a decoder that fails (length -1) on an object-identifier
write against the two-device table returns failure with the property /
value-out-of-range error pair and the state exactly as before. -/
theorem C9_write_error_witness :
    Routed_Device_Write_Property_Local (fun _ => (-1, AppValue.otherTagged 0))
      (fun w => (false, w)) stTwo ⟨75, [], 0, 0⟩ =
      (false, ⟨75, [], 2, 37⟩, stTwo) := by
  have h := (C9_write_error_thm (fun _ => (-1, AppValue.otherTagged 0))
    (fun w => (false, w)) stTwo ⟨75, [], 0, 0⟩).1 (by decide)
  rw [h]
  rfl
